import Mathlib

/-!
Shallow embedding of `src/webexteamssdk/aio/api/messages.py`
(class `AsyncMessagesAPI`: methods `list`, `create`, `get`, `delete`).

The module under verification is glue code: it validates arguments, assembles
a filtered parameter mapping, decides between a JSON POST and a multipart
POST for message creation, and delegates HTTP I/O to a session collaborator.
We embed the decision logic and the request/trace it produces.  Helper
functions living in `webexteamssdk/aio/utils.py` and
`webexteamssdk/aio/generator_containers.py` are not part of the source under
`src/`; each such helper is modelled from the spec and carries a doc comment
saying so.
-/

namespace WebexMessages

/-- An AdaptiveCard structured card object (`webexteamssdk.models.cards`).
Its content is abstract here; only its identity matters to the claims. -/
structure AdaptiveCard where
  content : String
deriving DecidableEq, Repr

/-- An element of the `attachments` argument: either a plain mapping (dict)
or a structured card object, per `check_type(attachment, (dict, AdaptiveCard))`
at line 209 of the source. -/
inductive Attachment where
  | dictA (entries : List (String × String))
  | cardA (c : AdaptiveCard)
deriving DecidableEq, Repr

/-- Modelled from the spec: `make_attachment` (webexteamssdk/aio/utils.py,
not under src/) serializes a structured card object into its wire-format
mapping before transmission. -/
def make_attachment (c : AdaptiveCard) : Attachment :=
  .dictA [("contentType", "application/vnd.microsoft.card.adaptive"),
          ("content", c.content)]

/-- A Python object as far as the `isinstance(_, AdaptiveCard)` test at line
211 of the source can see it: the test receives either the `attachments`
list itself or one of its elements. -/
inductive PyObj where
  | pyList (xs : List Attachment)
  | pyAttachment (a : Attachment)

/-- `isinstance(obj, AdaptiveCard)`: true exactly when the object is a
structured card object; a Python list is never an AdaptiveCard. -/
def isinstanceAdaptiveCard : PyObj → Bool
  | .pyAttachment (.cardA _) => true
  | _ => false

/-- Embedding of the attachment-processing loop, source lines 206-212.
The source tests `isinstance(attachments, AdaptiveCard)` — the test is
applied to the list `attachments`, not to the element `attachment` — and
only replaces elements when that test is true. -/
def processAttachments (attachments : List Attachment) : List Attachment :=
  if isinstanceAdaptiveCard (.pyList attachments) then
    attachments.map (fun a =>
      match a with
      | .cardA c => make_attachment c
      | d => d)
  else
    attachments

/-- A value stored in a query-parameter or post-data mapping. -/
inductive PostVal where
  | vStr (s : String)
  | vInt (n : Int)
  | vFiles (fs : List String)
  | vAtts (ats : List Attachment)
deriving DecidableEq, Repr

/-- Modelled from the spec: `dict_from_items_with_values`
(webexteamssdk/aio/utils.py, not under src/) assembles a mapping that
contains only the keys whose values are non-None; absent/None values are
omitted entirely.  `extras` are the `**request_parameters`, passed first at
both call sites (source lines 123-130 and 214-223). -/
def dict_from_items_with_values (extras : List (String × Option PostVal))
    (items : List (String × Option PostVal)) : List (String × PostVal) :=
  (extras ++ items).filterMap (fun kv => kv.2.map (fun v => (kv.1, v)))

/-- Whether `s` starts with the string `pre`, computed on character lists. -/
def strStarts (pre s : String) : Bool :=
  s.toList.take pre.toList.length == pre.toList

/-- Modelled from the spec: `is_web_url` (webexteamssdk/aio/utils.py, not
under src/) recognizes a web URL such as http://... or https://... . -/
def is_web_url (s : String) : Bool :=
  strStarts "http://" s || strStarts "https://" s

/-- Contents of an existing local file: its original name and bytes. -/
structure FileData where
  file_name : String
  content : List Nat
deriving DecidableEq, Repr

/-- The environment a single call runs against: which local paths name
existing files (`is_local_file`), whether opening a path raises an I/O
error and with what message (`open_local_file`), whether the session's
POST/GET raises an API error, the generated multipart boundary, and the
JSON the server responds with. -/
structure Env where
  localFiles : String → Option FileData
  openFails : String → Option String
  postFails : Bool
  getFails : Bool
  boundary : String
  response : String

/-- Modelled from the spec: `is_local_file` (webexteamssdk/aio/utils.py, not
under src/) is true exactly when the string is a path to an existing local
file. -/
def is_local_file (env : Env) (s : String) : Bool :=
  (env.localFiles s).isSome

/-- Modelled from the spec: `check_type` (webexteamssdk/aio/utils.py, not
under src/) performs dynamic type checking only — it accepts any value of
the expected type (optionally None) and raises TypeError otherwise.  In the
typed embedding a `String` argument always passes; no constraint beyond the
type (in particular no non-emptiness check) is imposed. -/
def check_type_str (_ : String) : Bool := true

/-- One part of a multipart body.  `filePart name filename content` stands
for a part with header `Content-Disposition: form-data; name="name";
filename="filename"` carrying the file bytes; `fieldPart name value` stands
for a part with header `Content-Disposition: form-data; name="name"`. -/
inductive Part where
  | filePart (name : String) (filename : String) (content : List Nat)
  | fieldPart (name : String) (value : PostVal)
deriving DecidableEq, Repr

/-- An outbound HTTP request as issued by this module. -/
inductive Request where
  | jsonPost (endpoint : String) (body : List (String × PostVal))
  | multipartPost (endpoint : String) (headers : List (String × String))
      (parts : List Part)
  | httpGet (path : String) (params : List (String × PostVal))
deriving DecidableEq, Repr

/-- An error escaping a call, mirroring the Python exception kinds. -/
inductive CreateErr where
  | typeError (msg : String)
  | valueError (msg : String)
  | ioError (msg : String)
  | apiError
  | unboundLocalError (name : String)
deriving DecidableEq, Repr

/-- Decidable equality for `Except`, needed to evaluate call outcomes. -/
def exceptDecEq {ε α : Type} [DecidableEq ε] [DecidableEq α] :
    DecidableEq (Except ε α)
  | .error a, .error b =>
    if h : a = b then .isTrue (by rw [h]) else .isFalse (by simp [h])
  | .error _, .ok _ => .isFalse (by simp)
  | .ok _, .error _ => .isFalse (by simp)
  | .ok a, .ok b =>
    if h : a = b then .isTrue (by rw [h]) else .isFalse (by simp [h])

instance {ε α : Type} [DecidableEq ε] [DecidableEq α] :
    DecidableEq (Except ε α) := exceptDecEq

/-- The object returned by `self._object_factory(OBJECT_TYPE, json_data)`. -/
structure Message where
  objectType : String
  json : String
deriving DecidableEq, Repr

/-- The observable outcome of one `create` call: its return value or raised
error, the requests it issued, whether a local file handle was opened, and
whether that handle was closed by the time the call returned or raised. -/
structure CreateResult where
  result : Except CreateErr Message
  requests : List Request
  opened : Bool
  closed : Bool
deriving DecidableEq, Repr

/-- The ValueError message raised at source lines 194-201 when `files` has
more than one element (adjacent string literals concatenated). -/
def filesLengthErrMsg : String :=
  "The `files` parameter should be a list with exactly one (1) item. " ++
  "The files parameter is a list, which accepts multiple values to " ++
  "allow for future expansion, but currently only one file may be " ++
  "included with the message."

/-- The ValueError message raised at source lines 258-261 (the source
misspells "valid" as "vaild"). -/
def filesInvalidErrMsg : String :=
  "The `files` parameter does not contain a vaild URL or path to a local file."

/-- Arguments of `AsyncMessagesAPI.create` (source lines 139-148). -/
structure CreateArgs where
  roomId : Option String := none
  toPersonId : Option String := none
  toPersonEmail : Option String := none
  text : Option String := none
  markdown : Option String := none
  files : Option (List String) := none
  attachments : Option (List Attachment) := none
  request_parameters : List (String × Option PostVal) := []

/-- Normalization of `files` at source lines 192-204: a falsy value (absent
or empty list) becomes None; a non-empty list is kept. -/
def normFiles : Option (List String) → Option (List String)
  | none => none
  | some [] => none
  | some fs => some fs

/-- The post-data mapping assembled at source lines 214-223 for a given
(already normalized) `files` value: request_parameters first, then the named
fields, keys with None values omitted; `attachments` has been run through
the processing loop of lines 206-212 beforehand. -/
def createPostDataWith (args : CreateArgs) (files : Option (List String)) :
    List (String × PostVal) :=
  dict_from_items_with_values args.request_parameters
    [("roomId", args.roomId.map .vStr),
     ("toPersonId", args.toPersonId.map .vStr),
     ("toPersonEmail", args.toPersonEmail.map .vStr),
     ("text", args.text.map .vStr),
     ("markdown", args.markdown.map .vStr),
     ("files", files.map .vFiles),
     ("attachments", (args.attachments.map processAttachments).map .vAtts)]

/-- The post-data mapping `create` assembles for its arguments. -/
def createPostData (args : CreateArgs) : List (String × PostVal) :=
  createPostDataWith args (normFiles args.files)

/-- A call outcome that raised locally before any request was sent. -/
def noRequestResult (e : CreateErr) : CreateResult :=
  { result := .error e, requests := [], opened := false, closed := false }

/-- The standard JSON POST path, source lines 226-228. -/
def jsonPostPath (env : Env) (post_data : List (String × PostVal)) :
    CreateResult :=
  { result := if env.postFails then .error .apiError
              else .ok ⟨"message", env.response⟩,
    requests := [.jsonPost "messages" post_data],
    opened := false, closed := false }

/-- Removal of a key from the post-data mapping (`post_data.pop(k, None)`). -/
def removeKey (k : String) (d : List (String × PostVal)) :
    List (String × PostVal) :=
  d.filter (fun kv => kv.1 ≠ k)

/-- The multipart body built at source lines 236-245: the file part is
appended first, then one form-data part per remaining post-data field. -/
def multipartParts (fd : FileData) (d : List (String × PostVal)) : List Part :=
  .filePart "files" fd.file_name fd.content ::
    d.map (fun kv => .fieldPart kv.1 kv.2)

/-- The multipart MIME POST path, source lines 230-256.  The try-block pops
`"files"` and the misspelled key `"attachements"` from the post-data, opens
the local file, builds the multipart body and POSTs it with the
`multipart/form-data` content type carrying the generated boundary.  The
finally-block (lines 254-256) reads the local variable `file`: when
`open_local_file` raised, `file` was never assigned, so the finally-block
itself raises UnboundLocalError, replacing the pending I/O error; when
`file` is bound, the finally-block closes the handle whether the POST
succeeded or raised. -/
def multipartPath (env : Env) (post_data : List (String × PostVal))
    (p : String) : CreateResult :=
  let d1 := removeKey "files" post_data
  let d2 := removeKey "attachements" d1
  match env.openFails p with
  | some _ =>
    { result := .error (.unboundLocalError "file"), requests := [],
      opened := false, closed := false }
  | none =>
    match env.localFiles p with
    | none =>
      { result := .error (.unboundLocalError "file"), requests := [],
        opened := false, closed := false }
    | some fd =>
      { result := if env.postFails then .error .apiError
                  else .ok ⟨"message", env.response⟩,
        requests := [.multipartPost "messages"
          [("Content-type", "multipart/form-data; boundary=" ++ env.boundary)]
          (multipartParts fd d2)],
        opened := true, closed := true }

/-- The request-shape decision of `create`, source lines 226-261, after
`files` validation: `files` here is already normalized and, when present,
has exactly one element. -/
def createMain (env : Env) (args : CreateArgs)
    (files : Option (List String)) : CreateResult :=
  let post_data := createPostDataWith args files
  match files with
  | none => jsonPostPath env post_data
  | some fs =>
    let f0 := fs.headD ""
    if is_web_url f0 then jsonPostPath env post_data
    else if is_local_file env f0 then multipartPath env post_data f0
    else noRequestResult (.valueError filesInvalidErrMsg)

/-- `AsyncMessagesAPI.create`, source lines 139-264: validate `files`
(lines 192-204), process attachments, assemble the post-data, and take the
JSON, multipart, or error path. -/
def createRun (env : Env) (args : CreateArgs) : CreateResult :=
  match args.files with
  | none => createMain env args none
  | some [] => createMain env args none
  | some fs =>
    if fs.length > 1 then noRequestResult (.valueError filesLengthErrMsg)
    else createMain env args (some fs)

/-- The observable outcome of one `get` call. -/
structure GetResult where
  result : Except CreateErr Message
  requests : List Request
deriving DecidableEq, Repr

/-- `AsyncMessagesAPI.get`, source lines 266-287: `check_type(messageId,
str)` then GET `messages/{messageId}` and build a Message from the
response. -/
def getRun (env : Env) (messageId : String) : GetResult :=
  if check_type_str messageId then
    { result := if env.getFails then .error .apiError
                else .ok ⟨"message", env.response⟩,
      requests := [.httpGet ("messages" ++ "/" ++ messageId) []] }
  else
    { result := .error (.typeError "messageId"), requests := [] }

/-- Arguments of `AsyncMessagesAPI.list` (source lines 69-78). -/
structure ListArgs where
  roomId : String
  mentionedPeople : Option String := none
  before : Option String := none
  beforeMessage : Option String := none
  max : Option Int := none
  request_parameters : List (String × Option PostVal) := []

/-- The query-parameter mapping assembled by `list` at source lines 123-130:
request_parameters first, then the named fields, keys with None values
omitted. -/
def listParams (a : ListArgs) : List (String × PostVal) :=
  dict_from_items_with_values a.request_parameters
    [("roomId", some (.vStr a.roomId)),
     ("mentionedPeople", a.mentionedPeople.map .vStr),
     ("before", a.before.map .vStr),
     ("beforeMessage", a.beforeMessage.map .vStr),
     ("max", a.max.map .vInt)]

/-- Modelled from the spec: the session collaborator's `get_items`
(AsyncRestSession, not under src/) issues the initial GET with the given
parameters, follows pagination links internally, and returns the JSON
items. -/
structure SessionEnv where
  items : String → List (String × PostVal) → List String

/-- Modelled from the spec: `async_generator_container`
(webexteamssdk/aio/generator_containers.py, not under src/) wraps the
decorated coroutine into a reusable container that stores the original
call's endpoint and parameters; each time a new iterator is requested, the
generator body runs afresh with those stored parameters, sharing no cursor
state with other iterators. -/
structure GenContainer where
  endpoint : String
  params : List (String × PostVal)
deriving DecidableEq, Repr

/-- `AsyncMessagesAPI.list`, source lines 69-137: validate the arguments,
assemble the params mapping, and return the reusable generator container
for the messages endpoint. -/
def listRun (a : ListArgs) : GenContainer :=
  { endpoint := "messages", params := listParams a }

/-- One fresh iteration of the container: the generator body (source lines
132-137) issues `get_items` with the stored parameters — recorded by
appending the initial request to the request log — and yields one Message
per returned JSON item. -/
def iterateOnce (env : SessionEnv) (c : GenContainer) (log : List Request) :
    List Message × List Request :=
  ((env.items c.endpoint c.params).map (fun j => ⟨"message", j⟩),
   log ++ [.httpGet c.endpoint c.params])

/-- A sample structured card object. -/
def sampleCard : AdaptiveCard := ⟨"sampleCardBody"⟩

/-- An environment in which "report.txt" is an existing local file whose
bytes are [104, 105], every open succeeds, and every request succeeds. -/
def env1 : Env where
  localFiles := fun p =>
    if p = "report.txt" then some ⟨"report.txt", [104, 105]⟩ else none
  openFails := fun _ => none
  postFails := false
  getFails := false
  boundary := "bnd1"
  response := "respJson"

/-- Like `env1`, but opening "report.txt" raises a permission error (the
file exists, so `is_local_file` is still true). -/
def env2 : Env where
  localFiles := fun p =>
    if p = "report.txt" then some ⟨"report.txt", [104, 105]⟩ else none
  openFails := fun p =>
    if p = "report.txt" then some "PermissionError 13" else none
  postFails := false
  getFails := false
  boundary := "bnd1"
  response := "respJson"

/-- A `create` call with one AdaptiveCard attachment and no files. -/
def args1 : CreateArgs :=
  { roomId := some "R1", attachments := some [.cardA sampleCard] }

/-- A `create` call with one existing local file and one plain-mapping
attachment. -/
def args2 : CreateArgs :=
  { roomId := some "R1", files := some ["report.txt"],
    attachments := some [.dictA [("k", "v")]] }

/-- A `create` call whose single files entry is a web URL. -/
def args5 : CreateArgs :=
  { roomId := some "R1", files := some ["https://example.com/pic.png"] }

/-- A `create` call whose single files entry is neither a web URL nor a
path to an existing local file. -/
def args6 : CreateArgs :=
  { roomId := some "R1", files := some ["not-a-url-and-not-a-file"] }

/-- A `list` call with only the required roomId. -/
def la0 : ListArgs := { roomId := "R1" }

/-- A `create` call with every parameter left unset. -/
def ca0 : CreateArgs := {}

/-! ## Helper lemmas -/

/-- Membership in the assembled mapping comes from a non-None entry of the
inputs. -/
theorem mem_dict_iff (extras items : List (String × Option PostVal))
    (k : String) (v : PostVal) :
    (k, v) ∈ dict_from_items_with_values extras items ↔
      (k, some v) ∈ extras ∨ (k, some v) ∈ items := by
  constructor
  · intro h
    rcases List.mem_filterMap.mp h with ⟨⟨k1, o⟩, hmem, hf⟩
    rcases o with _ | w
    · simp at hf
    · simp at hf
      rcases hf with ⟨hk, hv⟩
      subst hk
      subst hv
      exact List.mem_append.mp hmem
  · intro h
    exact List.mem_filterMap.mpr ⟨(k, some v), List.mem_append.mpr h, rfl⟩

/-- A key appears in the assembled mapping only if some input entry holds a
non-None value for it. -/
theorem key_absent (extras items : List (String × Option PostVal))
    (k : String) (hx : ∀ o, (k, o) ∉ extras)
    (hi : ∀ v : PostVal, (k, some v) ∉ items) :
    k ∉ (dict_from_items_with_values extras items).map Prod.fst := by
  intro hmem
  rcases List.mem_map.mp hmem with ⟨⟨k1, v⟩, hkv, hk⟩
  dsimp at hk
  subst hk
  rcases (mem_dict_iff extras items k1 v).mp hkv with h | h
  · exact hx _ h
  · exact hi _ h

/-- On the no-files and web-URL paths, `create` issues exactly one JSON POST
to the messages endpoint with the assembled post-data as its body. -/
theorem json_requests_aux (env : Env) (args : CreateArgs)
    (h : args.files = none ∨ args.files = some [] ∨
      ∃ p, args.files = some [p] ∧ is_web_url p = true) :
    (createRun env args).requests =
      [.jsonPost "messages" (createPostData args)] := by
  rcases h with h | h | ⟨p, h, hw⟩
  · simp [createRun, h, createMain, jsonPostPath, createPostData, normFiles]
  · simp [createRun, h, createMain, jsonPostPath, createPostData, normFiles]
  · simp [createRun, h, createMain, jsonPostPath, createPostData, normFiles,
      hw]

/-- On the multipart path, whenever the file handle was opened it is closed
by the end of the call. -/
theorem multipartPath_closed (env : Env) (d : List (String × PostVal))
    (p : String) (h : (multipartPath env d p).opened = true) :
    (multipartPath env d p).closed = true := by
  cases ho : env.openFails p with
  | some e => simp [multipartPath, ho] at h
  | none =>
    cases hl : env.localFiles p with
    | none => simp [multipartPath, ho, hl] at h
    | some fd => simp [multipartPath, ho, hl]

/-- The request-shape decision never leaves an opened handle unclosed. -/
theorem createMain_closed (env : Env) (args : CreateArgs)
    (files : Option (List String))
    (h : (createMain env args files).opened = true) :
    (createMain env args files).closed = true := by
  cases files with
  | none => simp [createMain, jsonPostPath] at h
  | some fs =>
    cases hw : is_web_url (fs.head?.getD "") with
    | true => simp [createMain, hw, jsonPostPath] at h
    | false =>
      cases hlf : is_local_file env (fs.head?.getD "") with
      | true =>
        have hm : createMain env args (some fs) =
            multipartPath env (createPostDataWith args (some fs))
              (fs.head?.getD "") := by
          simp [createMain, hw, hlf]
        rw [hm] at h ⊢
        exact multipartPath_closed env _ _ h
      | false =>
        simp [createMain, hw, hlf, noRequestResult] at h

/-! ## Claims -/

/-- C1: the spec says every AdaptiveCard element of `attachments` is
serialized into its wire-format mapping before transmission.  The source
(line 211) applies the isinstance test to the list `attachments` instead of
the element, so the test is always false and a card element is transmitted
unserialized: with `attachments=[sampleCard]` the JSON POST body still
carries the card object itself, although `make_attachment` would have
produced a different (wire-format mapping) value. -/
theorem c1_card_left_unserialized :
    (createRun env1 args1).requests =
      [.jsonPost "messages"
        [("roomId", .vStr "R1"),
         ("attachments", .vAtts [.cardA sampleCard])]] ∧
    make_attachment sampleCard ≠ Attachment.cardA sampleCard := by
  constructor
  · rfl
  · decide

/-- C2: the spec says both the `files` key and the attachments key are
removed from the post-data before the multipart body is built.  The source
(line 234) pops the misspelled key "attachements", so the real
"attachments" key survives and the multipart body contains a form-data part
named "attachments" in addition to the file part and the other field
parts. -/
theorem c2_attachments_part_not_removed :
    (createRun env1 args2).requests =
      [.multipartPost "messages"
        [("Content-type", "multipart/form-data; boundary=bnd1")]
        [.filePart "files" "report.txt" [104, 105],
         .fieldPart "roomId" (.vStr "R1"),
         .fieldPart "attachments" (.vAtts [.dictA [("k", "v")]])]] := by
  decide

/-- C3: on every `create` call, if a local file handle was opened on the
multipart path then it has been closed by the time the call returns or
raises, on every exit path. -/
theorem c3_local_file_handle_closed (env : Env) (args : CreateArgs)
    (h : (createRun env args).opened = true) :
    (createRun env args).closed = true := by
  cases hf : args.files with
  | none =>
    simp only [createRun, hf] at h ⊢
    exact createMain_closed env args none h
  | some fs =>
    cases fs with
    | nil =>
      simp only [createRun, hf] at h ⊢
      exact createMain_closed env args none h
    | cons a t =>
      by_cases hlen : (a :: t).length > 1
      · simp only [createRun, hf, if_pos hlen] at h
        simp [noRequestResult] at h
      · simp only [createRun, hf, if_neg hlen] at h ⊢
        exact createMain_closed env args (some (a :: t)) h

/-- Witness for C3 at a concrete input: with an existing local file the
handle is opened and closed. -/
theorem c3_witness :
    (createRun env1 args2).opened = true ∧
    (createRun env1 args2).closed = true :=
  ⟨by decide, c3_local_file_handle_closed env1 args2 (by decide)⟩

/-- C4: the spec says a local file open failure surfaces as the underlying
I/O error.  In the source, when `open_local_file` raises, the local
variable `file` was never assigned, so the finally-block (lines 254-256)
raises UnboundLocalError, which replaces the underlying I/O error: with an
environment in which opening "report.txt" raises a permission error, the
call surfaces UnboundLocalError instead, and no request is sent. -/
theorem c4_open_failure_masked :
    (createRun env2 args2).result = .error (.unboundLocalError "file") ∧
    (createRun env2 args2).result ≠ .error (.ioError "PermissionError 13") ∧
    (createRun env2 args2).requests = [] := by
  decide

/-- C5: whenever `files` is absent (or normalized-empty) or its single
entry is a web URL, `create` issues exactly one standard JSON POST to the
messages endpoint whose body is the assembled post-data mapping — in
particular no multipart request and no multipart headers. -/
theorem c5_json_post (env : Env) (args : CreateArgs)
    (h : args.files = none ∨ args.files = some [] ∨
      ∃ p, args.files = some [p] ∧ is_web_url p = true) :
    (createRun env args).requests =
      [.jsonPost "messages" (createPostData args)] :=
  json_requests_aux env args h

/-- Witness for C5 at a concrete input: a single https URL takes the JSON
POST path. -/
theorem c5_witness :
    (createRun env1 args5).requests =
      [.jsonPost "messages" (createPostData args5)] :=
  c5_json_post env1 args5
    (Or.inr (Or.inr ⟨"https://example.com/pic.png", rfl, by decide⟩))

/-- C6: the spec and the function's own docstring say the ValueError
message reads "does not contain a valid URL or path to a local file"; the
source string (lines 258-261) misspells it as "vaild".  At the failing
input the call does raise a ValueError before any request is sent, but
with the misspelled message. -/
theorem c6_invalid_file_value_error :
    (createRun env1 args6).result = .error (.valueError filesInvalidErrMsg) ∧
    (createRun env1 args6).requests = [] ∧
    filesInvalidErrMsg =
      "The `files` parameter does not contain a vaild URL or path to a local file." := by
  decide

/-- C7: a `files` list with two or more entries raises the validation
error before any request is sent; an empty or absent `files` list is
treated as absent — no `files` key is sent (when the extra request
parameters do not themselves carry one) and the JSON POST path is taken. -/
theorem c7_files_validation (env : Env) (args : CreateArgs) :
    (∀ fs, args.files = some fs → 2 ≤ fs.length →
      (createRun env args).result = .error (.valueError filesLengthErrMsg) ∧
      (createRun env args).requests = []) ∧
    ((args.files = none ∨ args.files = some []) →
      (∀ o, ("files", o) ∉ args.request_parameters) →
      ("files" ∉ (createPostData args).map Prod.fst ∧
       (createRun env args).requests =
         [.jsonPost "messages" (createPostData args)])) := by
  constructor
  · intro fs hf hlen
    rcases fs with _ | ⟨a, fs1⟩
    · simp at hlen
    · rcases fs1 with _ | ⟨b, fs2⟩
      · simp at hlen
      · have hgt : (a :: b :: fs2).length > 1 := by
          simp only [List.length_cons]
          omega
        simp [createRun, hf, hgt, noRequestResult]
  · intro hor hreq
    have hnf : normFiles args.files = none := by
      rcases hor with h | h <;> simp [normFiles, h]
    constructor
    · simp only [createPostData, createPostDataWith, hnf]
      apply key_absent
      · exact hreq
      · intro v hv
        simp at hv
    · exact json_requests_aux env args (Or.imp_right Or.inl hor)

/-- Witness for C7 at concrete inputs: a two-entry files list raises the
validation error with no request sent, and an absent files list sends no
files key and takes the JSON POST path. -/
theorem c7_witness :
    ((createRun env1 { ca0 with files := some ["a", "b"] }).result =
        .error (.valueError filesLengthErrMsg) ∧
      (createRun env1 { ca0 with files := some ["a", "b"] }).requests = []) ∧
    ("files" ∉ (createPostData ca0).map Prod.fst ∧
      (createRun env1 ca0).requests =
        [.jsonPost "messages" (createPostData ca0)]) :=
  ⟨(c7_files_validation env1 { ca0 with files := some ["a", "b"] }).1
      ["a", "b"] rfl (by decide),
   (c7_files_validation env1 ca0).2 (Or.inl rfl) (by simp [ca0])⟩

/-- C8: an optional parameter left unset (None) has its key entirely absent
from the assembled query-parameter (list) and post-data (create) mappings,
provided the extra request parameters do not themselves carry that key; by
construction the assembled mappings contain only non-None values, so a
null-valued key is never sent. -/
theorem c8_unset_keys_absent (la : ListArgs) (ca : CreateArgs)
    (hl : la.request_parameters = []) (hc : ca.request_parameters = []) :
    (la.mentionedPeople = none →
      "mentionedPeople" ∉ (listParams la).map Prod.fst) ∧
    (la.before = none → "before" ∉ (listParams la).map Prod.fst) ∧
    (la.beforeMessage = none →
      "beforeMessage" ∉ (listParams la).map Prod.fst) ∧
    (la.max = none → "max" ∉ (listParams la).map Prod.fst) ∧
    (ca.roomId = none → "roomId" ∉ (createPostData ca).map Prod.fst) ∧
    (ca.toPersonId = none →
      "toPersonId" ∉ (createPostData ca).map Prod.fst) ∧
    (ca.toPersonEmail = none →
      "toPersonEmail" ∉ (createPostData ca).map Prod.fst) ∧
    (ca.text = none → "text" ∉ (createPostData ca).map Prod.fst) ∧
    (ca.markdown = none → "markdown" ∉ (createPostData ca).map Prod.fst) ∧
    (ca.files = none → "files" ∉ (createPostData ca).map Prod.fst) ∧
    (ca.attachments = none →
      "attachments" ∉ (createPostData ca).map Prod.fst) := by
  refine ⟨?_, ?_, ?_, ?_, ?_, ?_, ?_, ?_, ?_, ?_, ?_⟩ <;>
    intro hnone <;>
    first
    | (simp only [listParams]
       apply key_absent
       · simp [hl]
       · intro v hv
         simp [hnone] at hv)
    | (simp only [createPostData, createPostDataWith]
       apply key_absent
       · simp [hc]
       · intro v hv
         simp [hnone, normFiles] at hv)

/-- Witness for C8 at concrete inputs: unset optional parameters of `list`
and `create` produce no keys in the assembled mappings. -/
theorem c8_witness :
    ("mentionedPeople" ∉ (listParams la0).map Prod.fst) ∧
    ("text" ∉ (createPostData ca0).map Prod.fst) :=
  ⟨(c8_unset_keys_absent la0 ca0 rfl rfl).1 rfl,
   (c8_unset_keys_absent la0 ca0 rfl rfl).2.2.2.2.2.2.2.1 rfl⟩

/-- C9: the sequence returned by `list` is restartable — beginning
iteration twice over the container issues two independent requests with
identical initial parameters (those assembled from the original call), and
the second iteration yields the same messages as the first (no shared
cursor state). -/
theorem c9_list_restartable (env : SessionEnv) (a : ListArgs)
    (log : List Request) :
    (iterateOnce env (listRun a)
        ((iterateOnce env (listRun a) log).2)).2 =
      log ++ [.httpGet "messages" (listParams a),
        .httpGet "messages" (listParams a)] ∧
    (iterateOnce env (listRun a) log).1 =
      (iterateOnce env (listRun a)
        ((iterateOnce env (listRun a) log).2)).1 := by
  simp [iterateOnce, listRun]

/-- C10 counterexample: the claim says an empty messageId is rejected
locally before any request is issued; in the source `check_type(messageId,
str)` only checks the type, so `get("")` issues the GET request to
"messages/" and no local rejection happens. -/
theorem c10_empty_id_not_rejected :
    (getRun env1 "").requests = [.httpGet "messages/" []] ∧
    (getRun env1 "").result = .ok ⟨"message", "respJson"⟩ := by
  decide

/-- C10 (amended): `get` validates that messageId is a string (the dynamic
type check accepts any string, the empty string included), issues GET to
messages/<messageId>, and on success returns the Message constructed from
the response. -/
theorem c10_get_request (env : Env) (messageId : String) :
    (getRun env messageId).requests =
      [.httpGet ("messages" ++ "/" ++ messageId) []] ∧
    (env.getFails = false →
      (getRun env messageId).result = .ok ⟨"message", env.response⟩) := by
  constructor
  · rfl
  · intro h
    simp [getRun, check_type_str, h]

/-- Witness for the amended C10 at a concrete input. -/
theorem c10_get_request_witness :
    (getRun env1 "M1").requests =
      [.httpGet ("messages" ++ "/" ++ "M1") []] ∧
    (getRun env1 "M1").result = .ok ⟨"message", "respJson"⟩ :=
  ⟨(c10_get_request env1 "M1").1, (c10_get_request env1 "M1").2 rfl⟩

end WebexMessages
